import Mathlib

/-!
Verification of the Hyperledger Composer client facade
(`BusinessNetworkConnection`, package composer-client) and the REST
bootstrap (`composer-rest-server/server/boot/composer.js`).

The client facade delegates every operation to an injected transport
(`Connection`), chaincode RPC helpers (`Util.queryChainCode`,
`Util.invokeChainCode`) and static registry helpers.  We embed each
operation as a pure function from an environment (the responses the
collaborators would give) to an `Outcome`: either a synchronous throw,
a rejected promise, or a resolved value, together with the trace of
collaborator calls that were made.
-/

namespace Composer

/-- An authenticated session handle, opaque to the facade. -/
structure SecurityContext where
  token : Nat
deriving DecidableEq

/-- An opaque session to the underlying ledger transport. -/
structure Connection where
  id : Nat
deriving DecidableEq

/-- A deserialized business network archive. -/
structure BusinessNetworkDefinition where
  archive : List Nat
deriving DecidableEq

/-- A transaction registry: a named collection of transactions.  `isDefault`
marks the default transaction registry of the network. -/
structure TransactionRegistry where
  id : String
  isDefault : Bool
deriving DecidableEq

/-- The class declaration of a resource: whether it is a transaction
declaration, and its fully-qualified type name. -/
structure ClassDeclaration where
  isTransactionDeclaration : Bool
  fullyQualifiedName : String
deriving DecidableEq

/-- A typed resource instance produced by the network factory.  Identifier
and timestamp may be missing before submission. -/
structure Resource where
  classDeclaration : ClassDeclaration
  identifier : Option String
  timestamp : Option Nat
  fullyQualifiedIdentifier : String
deriving DecidableEq

/-- One call made to a collaborator (transport, profile manager, registry
helper or chaincode RPC helper). -/
inductive Call where
  | profileManagerConnect (profile networkId : String)
  | login (enrollmentId enrollmentSecret : String)
  | ping (ctx : SecurityContext)
  | queryChainCode (ctx : SecurityContext) (fn : String) (args : List String)
  | invokeChainCode (ctx : SecurityContext) (fn : String) (args : List String)
  | createIdentity (ctx : SecurityContext) (userId : String)
  | transportDisconnect
  | getAllTransactionRegistries (ctx : SecurityContext)
deriving DecidableEq

/-- The observable outcome of a facade operation: a synchronous throw
(before any I/O, hence it carries no call trace), a rejected promise, or a
resolved value; the latter two carry the trace of collaborator calls. -/
inductive Outcome (α : Type) where
  | syncThrow (msg : String)
  | rejected (msg : String) (calls : List Call)
  | ok (value : α) (calls : List Call)
deriving DecidableEq

/-- The collaborator calls an outcome performed (none for a synchronous
throw). -/
def Outcome.calls {α : Type} : Outcome α → List Call
  | .syncThrow _ => []
  | .rejected _ cs => cs
  | .ok _ cs => cs

/-- The mutable state of a `BusinessNetworkConnection` instance: the held
transport connection, security context and business network definition. -/
structure BusinessNetworkConnection where
  connection : Option Connection
  securityContext : Option SecurityContext
  businessNetwork : Option BusinessNetworkDefinition
deriving DecidableEq

/-- Modelled from the spec: the `BusinessNetworkConnection` constructor
(composer-client; implementation not in the excerpt).  A freshly
constructed instance holds no connection, no security context and no
business network. -/
def newBusinessNetworkConnection : BusinessNetworkConnection :=
  ⟨none, none, none⟩

/-- Modelled from the spec: `BusinessNetworkConnection.disconnect`
(composer-client; implementation not in the excerpt).  "If a connection is
held, disconnects and clears state; otherwise a no-op."  Returns the new
state and the trace of transport calls. -/
def disconnect (bnc : BusinessNetworkConnection) :
    BusinessNetworkConnection × List Call :=
  match bnc.connection with
  | none => (bnc, [])
  | some _ =>
      ({ bnc with connection := none, securityContext := none }, [.transportDisconnect])

/-- Claim C10: a freshly constructed `BusinessNetworkConnection` holds no
connection — its connection field is null immediately after the
constructor runs. -/
theorem new_connection_holds_no_connection :
    newBusinessNetworkConnection.connection = none := rfl

/-- Claim C3: `disconnect` is idempotent.  On a never-connected instance it
succeeds without calling the transport; after any disconnect the held
connection is cleared, so a second disconnect is a no-op that makes no
transport call. -/
theorem disconnect_idempotent :
    disconnect newBusinessNetworkConnection = (newBusinessNetworkConnection, [])
    ∧ ∀ bnc : BusinessNetworkConnection,
        (disconnect bnc).1.connection = none
        ∧ disconnect (disconnect bnc).1 = ((disconnect bnc).1, []) := by
  refine ⟨rfl, fun bnc => ?_⟩
  cases h : bnc.connection <;> simp [disconnect, h]

/-- Modelled from the spec: `BusinessNetworkConnection.getTransactionRegistry`
(composer-client; implementation not in the excerpt).  "Fetches all
transaction registries and returns the sole default one; fails with a
descriptive error if none exists."  `registries` is the list the static
helper `TransactionRegistry.getAllTransactionRegistries` resolves with. -/
def getTransactionRegistry (ctx : SecurityContext)
    (registries : List TransactionRegistry) : Outcome TransactionRegistry :=
  match registries.find? (fun r => r.isDefault) with
  | some r => .ok r [.getAllTransactionRegistries ctx]
  | none =>
      .rejected "failed to find the default transaction registry"
        [.getAllTransactionRegistries ctx]

/-- The collaborator responses `submitTransaction` depends on: the value the
UUID v4 generator would return, the current time, the transaction
registries the helper resolves with, the network serializer, and the
chaincode response to the invoke. -/
structure SubmitEnv where
  uuidV4 : String
  now : Nat
  registries : List TransactionRegistry
  toJSON : Resource → String
  invokeResult : Except String Unit

/-- Modelled from the spec: the part of `submitTransaction` that "assigns an
identifier (UUID v4) and timestamp (current time) if missing". -/
def assignDefaults (env : SubmitEnv) (t : Resource) : Resource :=
  let t1 :=
    match t.identifier with
    | none => { t with identifier := some env.uuidV4 }
    | some _ => t
  match t1.timestamp with
  | none => { t1 with timestamp := some env.now }
  | some _ => t1

/-- Modelled from the spec: `BusinessNetworkConnection.submitTransaction`
(composer-client; implementation not in the excerpt).  "Validates the
argument is non-null and that its declared type is a transaction (fails
otherwise with a type-mismatch error naming the offending fully-qualified
type); resolves the default transaction registry; assigns an identifier
(UUID v4) and timestamp (current time) if missing; serializes to JSON via
the network's serializer; invokes chaincode's `submitTransaction` entry
point with the registry id and JSON payload.  Propagates chaincode
invocation errors unchanged." -/
def submitTransaction (env : SubmitEnv) (ctx : SecurityContext)
    (tx : Option Resource) : Outcome Unit :=
  match tx with
  | none => .syncThrow "transaction not specified"
  | some t =>
    if t.classDeclaration.isTransactionDeclaration then
      match getTransactionRegistry ctx env.registries with
      | .syncThrow e => .syncThrow e
      | .rejected e cs => .rejected e cs
      | .ok reg cs =>
        let json := env.toJSON (assignDefaults env t)
        match env.invokeResult with
        | .ok _ =>
            .ok () (cs ++ [.invokeChainCode ctx "submitTransaction" [reg.id, json]])
        | .error e =>
            .rejected e (cs ++ [.invokeChainCode ctx "submitTransaction" [reg.id, json]])
    else
      .syncThrow (t.classDeclaration.fullyQualifiedName ++ " is not a transaction")

/-- If the default transaction registry is the sole default element of the
fetched list, `find?` locates it. -/
theorem find_default_of_filter_singleton (regs : List TransactionRegistry)
    (reg : TransactionRegistry)
    (h : regs.filter (fun r => r.isDefault) = [reg]) :
    regs.find? (fun r => r.isDefault) = some reg := by
  induction regs with
  | nil => simp at h
  | cons r rs ih =>
      cases hr : r.isDefault with
      | true =>
          simp only [List.filter_cons, hr, if_pos, List.cons.injEq] at h
          obtain ⟨rfl, -⟩ := h
          simp [List.find?_cons, hr]
      | false =>
          simp only [List.filter_cons, hr, Bool.false_eq_true, if_false] at h
          simp [List.find?_cons, hr, ih h]

/-- Claim C4: `getTransactionRegistry` fetches all transaction registries
and returns the sole default one; with zero transaction registries it
fails, the error message containing "default transaction registry". -/
theorem getTransactionRegistry_default_or_error (ctx : SecurityContext) :
    (∀ (regs : List TransactionRegistry) (reg : TransactionRegistry),
        regs.filter (fun r => r.isDefault) = [reg] →
        getTransactionRegistry ctx regs = .ok reg [.getAllTransactionRegistries ctx])
    ∧ (∃ msg pre post,
        getTransactionRegistry ctx [] = .rejected msg [.getAllTransactionRegistries ctx]
        ∧ msg = pre ++ "default transaction registry" ++ post) := by
  constructor
  · intro regs reg h
    rw [getTransactionRegistry, find_default_of_filter_singleton regs reg h]
  · exact ⟨"failed to find the default transaction registry",
      "failed to find the ", "", rfl, rfl⟩

/-- Witness for claim C4 at a concrete registry list. -/
theorem getTransactionRegistry_default_or_error_witness :
    getTransactionRegistry ⟨7⟩ [⟨"d2d210a3", false⟩, ⟨"reg1", true⟩]
      = .ok ⟨"reg1", true⟩ [.getAllTransactionRegistries ⟨7⟩]
    ∧ (∃ msg pre post,
        getTransactionRegistry ⟨7⟩ [] = .rejected msg [.getAllTransactionRegistries ⟨7⟩]
        ∧ msg = pre ++ "default transaction registry" ++ post) :=
  ⟨(getTransactionRegistry_default_or_error ⟨7⟩).1
      [⟨"d2d210a3", false⟩, ⟨"reg1", true⟩] ⟨"reg1", true⟩ (by decide),
    (getTransactionRegistry_default_or_error ⟨7⟩).2⟩

/-- Claim C5: `submitTransaction` called with a null argument fails
synchronously with the message "transaction not specified", before any
I/O (its call trace is empty). -/
theorem submitTransaction_null_throws (env : SubmitEnv) (ctx : SecurityContext) :
    submitTransaction env ctx none = .syncThrow "transaction not specified"
    ∧ (submitTransaction env ctx none).calls = [] :=
  ⟨rfl, rfl⟩

/-- Claim C6: for every non-null resource whose class declaration is not a
transaction declaration, `submitTransaction` fails synchronously (empty
call trace) with an error naming the fully-qualified type and stating it
is not a transaction. -/
theorem submitTransaction_non_transaction_throws (env : SubmitEnv)
    (ctx : SecurityContext) (t : Resource)
    (h : t.classDeclaration.isTransactionDeclaration = false) :
    submitTransaction env ctx (some t)
      = .syncThrow (t.classDeclaration.fullyQualifiedName ++ " is not a transaction")
    ∧ (submitTransaction env ctx (some t)).calls = [] := by
  refine ⟨?_, ?_⟩ <;> simp [submitTransaction, h, Outcome.calls]

/-- Witness for claim C6 at a concrete non-transaction resource. -/
theorem submitTransaction_non_transaction_throws_witness :
    submitTransaction ⟨"u", 0, [], fun _ => "j", .ok ()⟩ ⟨1⟩
        (some ⟨⟨false, "such.ns.suchType"⟩, none, none, "x"⟩)
      = .syncThrow ("such.ns.suchType" ++ " is not a transaction")
    ∧ (submitTransaction ⟨"u", 0, [], fun _ => "j", .ok ()⟩ ⟨1⟩
        (some ⟨⟨false, "such.ns.suchType"⟩, none, none, "x"⟩)).calls = [] :=
  submitTransaction_non_transaction_throws ⟨"u", 0, [], fun _ => "j", .ok ()⟩ ⟨1⟩
    ⟨⟨false, "such.ns.suchType"⟩, none, none, "x"⟩ rfl

/-- Claim C1: for a resource declared as a transaction, `submitTransaction`
assigns the UUID v4 identifier and current-time timestamp when missing,
serializes the resulting transaction via the network serializer, and
invokes chaincode's `submitTransaction` entry point with exactly the
default transaction registry's id and that JSON payload. -/
theorem submitTransaction_assigns_and_invokes (env : SubmitEnv)
    (ctx : SecurityContext) (t : Resource) (reg : TransactionRegistry)
    (htx : t.classDeclaration.isTransactionDeclaration = true)
    (hreg : env.registries.find? (fun r => r.isDefault) = some reg)
    (hinv : env.invokeResult = .ok ()) :
    submitTransaction env ctx (some t)
      = .ok () [.getAllTransactionRegistries ctx,
          .invokeChainCode ctx "submitTransaction"
            [reg.id, env.toJSON (assignDefaults env t)]]
    ∧ (assignDefaults env t).identifier = some (t.identifier.getD env.uuidV4)
    ∧ (assignDefaults env t).timestamp = some (t.timestamp.getD env.now) := by
  refine ⟨?_, ?_, ?_⟩
  · simp [submitTransaction, getTransactionRegistry, htx, hreg, hinv]
  · unfold assignDefaults
    cases hid : t.identifier <;> cases hts : t.timestamp <;> simp [hid, hts]
  · unfold assignDefaults
    cases hid : t.identifier <;> cases hts : t.timestamp <;> simp [hid, hts]

/-- Witness for claim C1 at a concrete transaction missing both identifier
and timestamp. -/
theorem submitTransaction_assigns_and_invokes_witness :
    submitTransaction
        ⟨"c89291eb", 5, [⟨"d2d210a3", true⟩], fun _ => "fakejson", .ok ()⟩ ⟨1⟩
        (some ⟨⟨true, "such.ns.suchType"⟩, none, none, "x"⟩)
      = .ok () [.getAllTransactionRegistries ⟨1⟩,
          .invokeChainCode ⟨1⟩ "submitTransaction" ["d2d210a3", "fakejson"]]
    ∧ (assignDefaults
        ⟨"c89291eb", 5, [⟨"d2d210a3", true⟩], fun _ => "fakejson", .ok ()⟩
        ⟨⟨true, "such.ns.suchType"⟩, none, none, "x"⟩).identifier = some "c89291eb"
    ∧ (assignDefaults
        ⟨"c89291eb", 5, [⟨"d2d210a3", true⟩], fun _ => "fakejson", .ok ()⟩
        ⟨⟨true, "such.ns.suchType"⟩, none, none, "x"⟩).timestamp = some 5 :=
  submitTransaction_assigns_and_invokes
    ⟨"c89291eb", 5, [⟨"d2d210a3", true⟩], fun _ => "fakejson", .ok ()⟩ ⟨1⟩
    ⟨⟨true, "such.ns.suchType"⟩, none, none, "x"⟩ ⟨"d2d210a3", true⟩
    rfl rfl rfl

/-- Claim C9: when the chaincode invocation fails, `submitTransaction`
propagates the chaincode error unchanged as a rejected result, after
exactly one invoke call — never retried, suppressed or rewrapped. -/
theorem submitTransaction_propagates_error (env : SubmitEnv)
    (ctx : SecurityContext) (t : Resource) (reg : TransactionRegistry) (e : String)
    (htx : t.classDeclaration.isTransactionDeclaration = true)
    (hreg : env.registries.find? (fun r => r.isDefault) = some reg)
    (hinv : env.invokeResult = .error e) :
    submitTransaction env ctx (some t)
      = .rejected e [.getAllTransactionRegistries ctx,
          .invokeChainCode ctx "submitTransaction"
            [reg.id, env.toJSON (assignDefaults env t)]] := by
  simp [submitTransaction, getTransactionRegistry, htx, hreg, hinv]

/-- Witness for claim C9 at a concrete failing chaincode invocation. -/
theorem submitTransaction_propagates_error_witness :
    submitTransaction
        ⟨"c89291eb", 5, [⟨"d2d210a3", true⟩], fun _ => "fakejson",
          .error "failed to invoke chain-code"⟩ ⟨1⟩
        (some ⟨⟨true, "such.ns.suchType"⟩, some "tid", some 3, "x"⟩)
      = .rejected "failed to invoke chain-code"
          [.getAllTransactionRegistries ⟨1⟩,
            .invokeChainCode ⟨1⟩ "submitTransaction" ["d2d210a3", "fakejson"]] :=
  submitTransaction_propagates_error
    ⟨"c89291eb", 5, [⟨"d2d210a3", true⟩], fun _ => "fakejson",
      .error "failed to invoke chain-code"⟩ ⟨1⟩
    ⟨⟨true, "such.ns.suchType"⟩, some "tid", some 3, "x"⟩ ⟨"d2d210a3", true⟩
    "failed to invoke chain-code" rfl rfl rfl

/-- The 6-bit value of a base64 alphabet character, `none` for any other
character. -/
def base64Val (c : Char) : Option Nat :=
  if ('A' ≤ c ∧ c ≤ 'Z') then some (c.toNat - 65)
  else if ('a' ≤ c ∧ c ≤ 'z') then some (c.toNat - 97 + 26)
  else if ('0' ≤ c ∧ c ≤ '9') then some (c.toNat - 48 + 52)
  else if c = '+' then some 62
  else if c = '/' then some 63
  else none

/-- Decode base64 character groups of four into byte triples, honouring
trailing `=` padding; malformed input yields no further bytes. -/
def base64DecodeAux : List Char → List Nat
  | c1 :: c2 :: c3 :: c4 :: rest =>
    match base64Val c1, base64Val c2 with
    | some v1, some v2 =>
      let b1 := v1 * 4 + v2 / 16
      if c3 = '=' then [b1]
      else
        match base64Val c3 with
        | some v3 =>
          let b2 := (v2 % 16) * 16 + v3 / 4
          if c4 = '=' then [b1, b2]
          else
            match base64Val c4 with
            | some v4 => b1 :: b2 :: ((v3 % 4) * 64 + v4) :: base64DecodeAux rest
            | none => []
        | none => []
    | _, _ => []
  | _ => []

/-- Base64-decode a string into its byte sequence. -/
def base64Decode (s : String) : List Nat :=
  base64DecodeAux s.data

/-- The collaborator responses `connect` depends on: the profile manager's
connection, the transport's login and ping responses, the chaincode query
response (the base64 archive data it carries), and the archive
deserializer `BusinessNetworkDefinition.fromArchive`. -/
structure ConnectEnv where
  profileConnect : Except String Connection
  loginResult : Except String SecurityContext
  pingResult : Except String Unit
  queryResult : Except String String
  fromArchive : List Nat → BusinessNetworkDefinition

/-- Modelled from the spec: `BusinessNetworkConnection.connect`
(composer-client; implementation not in the excerpt).  "Obtains a
`Connection` from a profile manager, logs in to obtain a
`SecurityContext`, pings the network, queries chaincode for the archived
network definition (base64-decoded), and returns the deserialized
`BusinessNetworkDefinition`.  Fails if login, ping, or query fails;
propagates the underlying error."  Returns the definition together with
the updated facade state. -/
def connect (env : ConnectEnv) (bnc : BusinessNetworkConnection)
    (profile networkId enrollmentId enrollmentSecret : String) :
    Outcome (BusinessNetworkDefinition × BusinessNetworkConnection) :=
  match env.profileConnect with
  | .error e => .rejected e [.profileManagerConnect profile networkId]
  | .ok conn =>
    match env.loginResult with
    | .error e =>
        .rejected e [.profileManagerConnect profile networkId,
          .login enrollmentId enrollmentSecret]
    | .ok ctx =>
      match env.pingResult with
      | .error e =>
          .rejected e [.profileManagerConnect profile networkId,
            .login enrollmentId enrollmentSecret, .ping ctx]
      | .ok _ =>
        match env.queryResult with
        | .error e =>
            .rejected e [.profileManagerConnect profile networkId,
              .login enrollmentId enrollmentSecret, .ping ctx,
              .queryChainCode ctx "getBusinessNetwork" []]
        | .ok archiveData =>
          let bnd := env.fromArchive (base64Decode archiveData)
          .ok (bnd,
              { bnc with
                  connection := some conn,
                  securityContext := some ctx,
                  businessNetwork := some bnd })
            [.profileManagerConnect profile networkId,
              .login enrollmentId enrollmentSecret, .ping ctx,
              .queryChainCode ctx "getBusinessNetwork" []]

/-- Claim C2: `connect` obtains a connection from the profile manager, logs
in, pings with the obtained security context, queries chaincode with
`getBusinessNetwork` and an empty argument list, base64-decodes the
returned archive data and returns the deserialized definition; if login,
ping or the query fails, it fails and propagates the underlying error. -/
theorem connect_downloads_network (env : ConnectEnv)
    (bnc : BusinessNetworkConnection) (profile networkId eid esecret : String) :
    (∀ conn ctx archiveData,
        env.profileConnect = .ok conn → env.loginResult = .ok ctx →
        env.pingResult = .ok () → env.queryResult = .ok archiveData →
        connect env bnc profile networkId eid esecret
          = .ok (env.fromArchive (base64Decode archiveData),
              { bnc with
                  connection := some conn,
                  securityContext := some ctx,
                  businessNetwork := some (env.fromArchive (base64Decode archiveData)) })
              [.profileManagerConnect profile networkId, .login eid esecret,
                .ping ctx, .queryChainCode ctx "getBusinessNetwork" []])
    ∧ (∀ conn e, env.profileConnect = .ok conn → env.loginResult = .error e →
        connect env bnc profile networkId eid esecret
          = .rejected e [.profileManagerConnect profile networkId, .login eid esecret])
    ∧ (∀ conn ctx e, env.profileConnect = .ok conn → env.loginResult = .ok ctx →
        env.pingResult = .error e →
        connect env bnc profile networkId eid esecret
          = .rejected e [.profileManagerConnect profile networkId, .login eid esecret,
              .ping ctx])
    ∧ (∀ conn ctx e, env.profileConnect = .ok conn → env.loginResult = .ok ctx →
        env.pingResult = .ok () → env.queryResult = .error e →
        connect env bnc profile networkId eid esecret
          = .rejected e [.profileManagerConnect profile networkId, .login eid esecret,
              .ping ctx, .queryChainCode ctx "getBusinessNetwork" []]) := by
  refine ⟨?_, ?_, ?_, ?_⟩
  · intro conn ctx archiveData h1 h2 h3 h4
    simp [connect, h1, h2, h3, h4]
  · intro conn e h1 h2
    simp [connect, h1, h2]
  · intro conn ctx e h1 h2 h3
    simp [connect, h1, h2, h3]
  · intro conn ctx e h1 h2 h3 h4
    simp [connect, h1, h2, h3, h4]

/-- Witness for claim C2: a successful connect on the archive data
"aGVsbG8=" (which base64-decodes to the bytes of "hello"), and a connect
whose login fails. -/
theorem connect_downloads_network_witness :
    connect ⟨.ok ⟨3⟩, .ok ⟨7⟩, .ok (), .ok "aGVsbG8=", fun bs => ⟨bs⟩⟩
        newBusinessNetworkConnection "testprofile" "testnetwork" "enrollmentID" "enrollmentSecret"
      = .ok (⟨[104, 101, 108, 108, 111]⟩,
          ⟨some ⟨3⟩, some ⟨7⟩, some ⟨[104, 101, 108, 108, 111]⟩⟩)
          [.profileManagerConnect "testprofile" "testnetwork",
            .login "enrollmentID" "enrollmentSecret", .ping ⟨7⟩,
            .queryChainCode ⟨7⟩ "getBusinessNetwork" []]
    ∧ connect ⟨.ok ⟨3⟩, .error "login failed", .ok (), .ok "aGVsbG8=", fun bs => ⟨bs⟩⟩
        newBusinessNetworkConnection "testprofile" "testnetwork" "enrollmentID" "enrollmentSecret"
      = .rejected "login failed"
          [.profileManagerConnect "testprofile" "testnetwork",
            .login "enrollmentID" "enrollmentSecret"] := by
  constructor
  · have h := (connect_downloads_network
      ⟨.ok ⟨3⟩, .ok ⟨7⟩, .ok (), .ok "aGVsbG8=", fun bs => ⟨bs⟩⟩
      newBusinessNetworkConnection "testprofile" "testnetwork" "enrollmentID"
      "enrollmentSecret").1 ⟨3⟩ ⟨7⟩ "aGVsbG8=" rfl rfl rfl rfl
    exact h.trans (by decide)
  · exact (connect_downloads_network
      ⟨.ok ⟨3⟩, .error "login failed", .ok (), .ok "aGVsbG8=", fun bs => ⟨bs⟩⟩
      newBusinessNetworkConnection "testprofile" "testnetwork" "enrollmentID"
      "enrollmentSecret").2.1 ⟨3⟩ "login failed" rfl rfl

/-- The participant argument of `issueIdentity`: either a resource instance
or a literal fully-qualified identifier string. -/
inductive ParticipantArg where
  | resource (r : Resource)
  | ident (s : String)
deriving DecidableEq

/-- The participant identifier used in the chaincode invocation: a resource
is resolved via its fully-qualified identifier, a string is used as-is. -/
def participantId : ParticipantArg → String
  | .resource r => r.fullyQualifiedIdentifier
  | .ident s => s

/-- The collaborator responses `issueIdentity` depends on: the credential
the transport's `createIdentity` resolves with (a `userID`/`userSecret`
pair), and the chaincode response to the invoke. -/
structure IssueIdentityEnv where
  createIdentityResult : Except String (String × String)
  invokeResult : Except String Unit

/-- Modelled from the spec: `BusinessNetworkConnection.issueIdentity`
(composer-client; implementation not in the excerpt).  "Validates
participant and userId are provided (accepts either a resource instance,
resolved to its fully-qualified identifier, or a literal identifier
string); calls the transport to create an identity credential, then
invokes chaincode's `addParticipantIdentity` entry point binding the
identity to the participant; returns the created `userID`/`userSecret`
pair." -/
def issueIdentity (env : IssueIdentityEnv) (ctx : SecurityContext)
    (participant : Option ParticipantArg) (userId : Option String) :
    Outcome (String × String) :=
  match participant with
  | none => .syncThrow "participant not specified"
  | some p =>
    match userId with
    | none => .syncThrow "userID not specified"
    | some uid =>
      match env.createIdentityResult with
      | .error e => .rejected e [.createIdentity ctx uid]
      | .ok cred =>
        match env.invokeResult with
        | .error e =>
            .rejected e [.createIdentity ctx uid,
              .invokeChainCode ctx "addParticipantIdentity" [participantId p, uid]]
        | .ok _ =>
            .ok cred [.createIdentity ctx uid,
              .invokeChainCode ctx "addParticipantIdentity" [participantId p, uid]]

/-- Claim C7: `issueIdentity` behaves identically whether the participant is
given as a resource or as that resource's fully-qualified identifier
string; on success it calls the transport's `createIdentity` with the
security context and userId, invokes chaincode's `addParticipantIdentity`
with the participant id and userId, and returns the created
`userID`/`userSecret` pair. -/
theorem issueIdentity_resource_or_ident (env : IssueIdentityEnv)
    (ctx : SecurityContext) (r : Resource) (uid : String) :
    issueIdentity env ctx (some (.resource r)) (some uid)
      = issueIdentity env ctx (some (.ident r.fullyQualifiedIdentifier)) (some uid)
    ∧ (∀ uID uSec, env.createIdentityResult = .ok (uID, uSec) →
        env.invokeResult = .ok () →
        issueIdentity env ctx (some (.resource r)) (some uid)
          = .ok (uID, uSec) [.createIdentity ctx uid,
              .invokeChainCode ctx "addParticipantIdentity"
                [r.fullyQualifiedIdentifier, uid]]) := by
  constructor
  · simp [issueIdentity, participantId]
  · intro uID uSec h1 h2
    simp [issueIdentity, participantId, h1, h2]

/-- Witness for claim C7 at a concrete participant resource and userId. -/
theorem issueIdentity_resource_or_ident_witness :
    issueIdentity ⟨.ok ("dogeid1", "suchsecret"), .ok ()⟩ ⟨1⟩
        (some (.resource ⟨⟨false, "org.doge.Doge"⟩, none, none, "org.doge.Doge#DOGE_1"⟩))
        (some "dogeid1")
      = issueIdentity ⟨.ok ("dogeid1", "suchsecret"), .ok ()⟩ ⟨1⟩
          (some (.ident "org.doge.Doge#DOGE_1")) (some "dogeid1")
    ∧ issueIdentity ⟨.ok ("dogeid1", "suchsecret"), .ok ()⟩ ⟨1⟩
        (some (.resource ⟨⟨false, "org.doge.Doge"⟩, none, none, "org.doge.Doge#DOGE_1"⟩))
        (some "dogeid1")
      = .ok ("dogeid1", "suchsecret") [.createIdentity ⟨1⟩ "dogeid1",
          .invokeChainCode ⟨1⟩ "addParticipantIdentity"
            ["org.doge.Doge#DOGE_1", "dogeid1"]] := by
  have h := issueIdentity_resource_or_ident ⟨.ok ("dogeid1", "suchsecret"), .ok ()⟩ ⟨1⟩
    ⟨⟨false, "org.doge.Doge"⟩, none, none, "org.doge.Doge#DOGE_1"⟩ "dogeid1"
  exact ⟨h.1, h.2 "dogeid1" "suchsecret" rfl rfl⟩

end Composer

namespace ComposerRest

/-- An HTTP route override: verb and path. -/
structure HttpRoute where
  verb : String
  path : String
deriving DecidableEq

/-- A remote method of a Loopback shared class: whether it is static, and
its bare name.  Loopback exposes the remote name with a "prototype."
prefix for non-static methods. -/
structure SharedMethod where
  isStatic : Bool
  name : String
deriving DecidableEq

/-- The remote name the bootstrap tests against its whitelist: the bare
name for static methods, "prototype." plus the name otherwise
(`composer.js`, line 87). -/
def remoteMethodName (m : SharedMethod) : String :=
  (if m.isStatic then "" else "prototype.") ++ m.name

/-- The method whitelist chosen by declaration kind
(`composer.js`, lines 78-85). -/
def whitelistFor (composerType : String) : List String :=
  if composerType = "concept" then []
  else if composerType = "transaction" then ["create"]
  else ["create", "deleteById", "find", "findById", "exists", "replaceById"]

/-- The configuration applied to a remote method: disabled, or enabled with
an optional HTTP route override. -/
inductive MethodConfig where
  | disabled
  | enabled (http : Option HttpRoute)
deriving DecidableEq

/-- What the bootstrap does to one remote method of a discovered model
(`composer.js`, lines 86-97): methods outside the whitelist are disabled;
`exists` is remapped to a HEAD on `/:id`; `replaceById` is remapped to a
PUT on `/:id`; other whitelisted methods keep their routes. -/
def configureMethod (composerType : String) (m : SharedMethod) : MethodConfig :=
  let name := remoteMethodName m
  if (whitelistFor composerType).contains name = false then
    .disabled
  else if name = "exists" then
    .enabled (some ⟨"head", "/:id"⟩)
  else if name = "replaceById" then
    .enabled (some ⟨"put", "/:id"⟩)
  else
    .enabled none

/-- Claim C8: the REST bootstrap whitelists remote methods by declaration
kind: a concept exposes no methods, a transaction exposes only `create`,
and every other kind exposes exactly `create`, `deleteById`, `find`,
`findById`, `exists` (remapped to HEAD on `/:id`) and `replaceById`
(remapped to PUT on `/:id`); all methods outside the whitelist are
disabled. -/
theorem rest_method_whitelist (t : String) (m : SharedMethod)
    (hc : t ≠ "concept") (ht : t ≠ "transaction") :
    configureMethod "concept" m = .disabled
    ∧ configureMethod "transaction" m
        = (if remoteMethodName m = "create" then .enabled none else .disabled)
    ∧ configureMethod t m
        = (if remoteMethodName m = "exists" then .enabled (some ⟨"head", "/:id"⟩)
           else if remoteMethodName m = "replaceById" then .enabled (some ⟨"put", "/:id"⟩)
           else if remoteMethodName m ∈ ["create", "deleteById", "find", "findById"] then
             .enabled none
           else .disabled) := by
  refine ⟨?_, ?_, ?_⟩
  · simp [configureMethod, whitelistFor]
  · by_cases h1 : remoteMethodName m = "create" <;>
      simp [configureMethod, whitelistFor, h1]
  · have hw : whitelistFor t
        = ["create", "deleteById", "find", "findById", "exists", "replaceById"] := by
      simp [whitelistFor, hc, ht]
    by_cases h1 : remoteMethodName m = "create" <;>
      by_cases h2 : remoteMethodName m = "deleteById" <;>
      by_cases h3 : remoteMethodName m = "find" <;>
      by_cases h4 : remoteMethodName m = "findById" <;>
      by_cases h5 : remoteMethodName m = "exists" <;>
      by_cases h6 : remoteMethodName m = "replaceById" <;>
      simp_all [configureMethod, hw]

/-- Witness for claim C8 at kind "asset" and the static method `exists`. -/
theorem rest_method_whitelist_witness :
    configureMethod "concept" ⟨true, "exists"⟩ = .disabled
    ∧ configureMethod "transaction" ⟨true, "exists"⟩ = .disabled
    ∧ configureMethod "asset" ⟨true, "exists"⟩ = .enabled (some ⟨"head", "/:id"⟩) := by
  have h := rest_method_whitelist "asset" ⟨true, "exists"⟩ (by decide) (by decide)
  exact ⟨h.1, h.2.1.trans (by decide), h.2.2.trans (by decide)⟩

end ComposerRest
